import Mathlib

/-!
Shallow embedding of the MongoPackage facade (src/index.js, last revision)
over the Mongoose/MongoDB driver, which is treated as a black box.  Each
facade method is embedded as a pure function that, given the facade state,
an abstract driver behaviour and the call arguments, produces the result
(or the propagated error), the list of driver calls it issued, the console
log it produced, and the facade state after the call.
-/

/-- Opaque reference to a Mongoose model (schema); the facade never looks
inside a model, it only passes it to the driver. -/
structure Model where
  name : String
deriving DecidableEq, Repr

/-- Driver-level error object; opaque to the facade, which only logs and
re-throws it. -/
structure Err where
  msg : String
deriving DecidableEq, Repr

/-- Document: an identifier plus an opaque payload whose shape is owned by
the caller (the facade reads only the field with key underscore-id). -/
structure Doc where
  _id : String
  payload : List (String × String)
deriving DecidableEq, Repr

/-- JavaScript runtime value, as far as the facade observes values: it is
used for the dynamic arguments the facade checks (null, undefined,
booleans, numbers, strings, documents). -/
inductive Value where
  | nullV
  | undefV
  | boolV (b : Bool)
  | numV (n : Int)
  | strV (s : String)
  | docV (d : Doc)
deriving DecidableEq, Repr

/-- Opaque Mongoose query/filter object supplied by the caller. -/
structure Query where
  raw : String
deriving DecidableEq, Repr

/-- Opaque aggregation pipeline supplied by the caller. -/
structure Pipeline where
  stages : List String
deriving DecidableEq, Repr

/-- Opaque projection argument of a find call. -/
structure Proj where
  raw : String
deriving DecidableEq, Repr

/-- Opaque options object passed verbatim by findItems to the driver. -/
structure FindOpts where
  raw : String
deriving DecidableEq, Repr

/-- Update argument handed to the driver: either a plain document, a
document wrapped in a set operator, or a single-field set document. -/
inductive UpdateArg where
  | raw (d : Doc)
  | set (d : Doc)
  | setField (fieldName : String) (v : Value)
deriving DecidableEq, Repr

/-- Options of findByIdAndUpdate as constructed by insertItem. -/
structure UpdateOpts where
  new : Bool
  upsert : Bool
deriving DecidableEq, Repr

/-- DelFilter handed to deleteMany: either an opaque caller filter or the
id-membership filter the facade builds from an id array. -/
inductive DelFilter where
  | raw (q : Query)
  | idIn (ids : List Value)
deriving DecidableEq, Repr

/-- Semantics of a delete filter as executed by the driver, given an
oracle for opaque caller queries: the id-membership filter selects
exactly the documents whose id is listed. -/
def DelFilter.matches (qsem : Query → Doc → Bool) : DelFilter → Doc → Bool
  | .raw q, d => qsem q d
  | .idIn ids, d => ids.contains (Value.strV d._id)

/-- Options record of a raw collection find, with the exact keys
queryCollection writes (limit, skip, sort, projection, batchSize,
readPreference); a missing key is none. -/
structure QueryOpts where
  limit : Option Nat
  skip : Option Nat
  sort : Option String
  projection : Option String
  batchSize : Option Nat
  readPreference : Option String
deriving DecidableEq, Repr

/-- Options record of a raw collection aggregate, with the exact keys
aggregateCollection writes (allowDiskUse, maxTimeMS,
bypassDocumentValidation); a missing key is none. -/
structure AggOpts where
  allowDiskUse : Option Bool
  maxTimeMS : Option Nat
  bypassDocumentValidation : Option Bool
deriving DecidableEq, Repr

/-- Result object of a driver deleteMany. -/
structure DeleteResult where
  deletedCount : Nat
deriving DecidableEq, Repr

/-- Result object of a driver updateMany. -/
structure UpdateResult where
  modifiedCount : Nat
deriving DecidableEq, Repr

/-- One driver invocation, recording the primitive called and the exact
arguments the facade handed to it. -/
inductive DriverCall where
  | findByIdAndUpdate (m : Model) (id : String) (update : UpdateArg) (opts : UpdateOpts)
  | save (m : Model) (d : Doc)
  | existsD (m : Model) (q : Query)
  | deleteMany (m : Model) (f : DelFilter)
  | find (m : Model) (q : Query) (proj : Option Proj) (opts : FindOpts)
  | aggregate (m : Model) (p : Pipeline)
  | updateMany (m : Model) (f : Query) (u : UpdateArg)
  | connect (uri : String)
  | disconnect
  | collFind (collectionName : String) (filter : Query) (opts : QueryOpts)
  | collAggregate (collectionName : String) (p : Pipeline) (opts : AggOpts)
deriving DecidableEq, Repr

/-- One console entry: a plain log line or an error line carrying the
logged error object. -/
inductive LogEntry where
  | info (msg : String)
  | err (msg : String) (e : Err)
deriving DecidableEq, Repr

/-- Behaviour of the black-box driver: the response of each primitive the
facade may call. -/
structure Driver where
  findByIdAndUpdate : Model → String → UpdateArg → UpdateOpts → Except Err Doc
  save : Model → Doc → Except Err Unit
  existsD : Model → Query → Except Err (Option Doc)
  deleteMany : Model → DelFilter → Except Err DeleteResult
  find : Model → Query → Option Proj → FindOpts → Except Err (List Doc)
  aggregate : Model → Pipeline → Except Err (List Doc)
  updateMany : Model → Query → UpdateArg → Except Err UpdateResult
  connect : String → Except Err Unit
  disconnect : Except Err Unit
  collFind : String → Query → QueryOpts → Except Err (List Doc)
  collAggregate : String → Pipeline → AggOpts → Except Err (List Doc)

/-- Facade state: the connection URI and the optional default model, both
set in the constructor. -/
structure MongoPackage where
  mongoUri : String
  defaultModel : Option Model
deriving DecidableEq, Repr

/-- Outcome of one facade operation: the returned value or thrown error,
the driver calls issued (in order), the console log produced (in order),
and the facade state after the operation. -/
structure OpOut (α : Type) where
  result : Except Err α
  calls : List DriverCall
  log : List LogEntry
  post : MongoPackage
deriving Repr

/-- Error thrown by getModel when neither a per-call nor a default model
exists. -/
def noModelErr : Err := ⟨"No model specified or default model provided"⟩

/-- Error thrown by deleteItems when its input is not an array. -/
def notArrayErr : Err := ⟨"Input must be an array of _id"⟩

/-- getModel: return the per-call model if given, else the default model,
else throw. -/
def MongoPackage.getModel (st : MongoPackage) (model : Option Model) : Except Err Model :=
  match model, st.defaultModel with
  | none, none => .error noModelErr
  | some m, _ => .ok m
  | none, some d => .ok d

/-- connect: await mongoose.connect(this.mongoUri), log, rethrow on
error. -/
def MongoPackage.connect (st : MongoPackage) (dr : Driver) : OpOut Unit :=
  match dr.connect st.mongoUri with
  | .ok _ => ⟨.ok (), [.connect st.mongoUri], [.info "Connected to MongoDB"], st⟩
  | .error e => ⟨.error e, [.connect st.mongoUri], [.err "Error connecting to MongoDB:" e], st⟩

/-- disconnect: await mongoose.disconnect(), log, rethrow on error. -/
def MongoPackage.disconnect (st : MongoPackage) (dr : Driver) : OpOut Unit :=
  match dr.disconnect with
  | .ok _ => ⟨.ok (), [.disconnect], [.info "Disconnected from MongoDB"], st⟩
  | .error e => ⟨.error e, [.disconnect], [.err "Error disconnecting from MongoDB:" e], st⟩

/-- insertItem: with updateIfExists, findByIdAndUpdate on item id with the
item wrapped in a set operator and options new plus upsert; otherwise
construct a model instance from the item and save it, returning the new
item.  Errors (including the getModel throw) are logged and rethrown. -/
def MongoPackage.insertItem (st : MongoPackage) (dr : Driver) (item : Doc)
    (updateIfExists : Bool) (model : Option Model) : OpOut Doc :=
  match st.getModel model with
  | .error e => ⟨.error e, [], [.err "Error inserting item:" e], st⟩
  | .ok activeModel =>
    if updateIfExists then
      match dr.findByIdAndUpdate activeModel item._id (.set item) ⟨true, true⟩ with
      | .ok d =>
        ⟨.ok d, [.findByIdAndUpdate activeModel item._id (.set item) ⟨true, true⟩], [], st⟩
      | .error e =>
        ⟨.error e, [.findByIdAndUpdate activeModel item._id (.set item) ⟨true, true⟩],
          [.err "Error inserting item:" e], st⟩
    else
      match dr.save activeModel item with
      | .ok _ => ⟨.ok item, [.save activeModel item], [], st⟩
      | .error e => ⟨.error e, [.save activeModel item], [.err "Error inserting item:" e], st⟩

/-- existsItem: call the driver existence check and coerce its nullable
result to a strict boolean with a double negation. -/
def MongoPackage.existsItem (st : MongoPackage) (dr : Driver) (query : Query)
    (model : Option Model) : OpOut Bool :=
  match st.getModel model with
  | .error e => ⟨.error e, [], [.err "Error checking item existence:" e], st⟩
  | .ok activeModel =>
    match dr.existsD activeModel query with
    | .ok o => ⟨.ok o.isSome, [.existsD activeModel query], [], st⟩
    | .error e => ⟨.error e, [.existsD activeModel query], [.err "Error checking item existence:" e], st⟩

/-- Dynamic items argument of insertArray as the facade distinguishes it:
null, undefined, or an array of documents. -/
inductive ItemsArg where
  | jsNull
  | jsUndefined
  | arr (l : List Doc)
deriving DecidableEq, Repr

/-- Sequential loop body of insertArray: await insertItem on each item in
order, stopping at (and propagating) the first error. -/
def MongoPackage.insertLoop (st : MongoPackage) (dr : Driver) (updateIfExists : Bool)
    (model : Option Model) : List Doc → OpOut (List Doc)
  | [] => ⟨.ok [], [], [], st⟩
  | item :: rest =>
    let o := st.insertItem dr item updateIfExists model
    match o.result with
    | .error e => ⟨.error e, o.calls, o.log, st⟩
    | .ok v =>
      let r := st.insertLoop dr updateIfExists model rest
      match r.result with
      | .ok vs => ⟨.ok (v :: vs), o.calls ++ r.calls, o.log ++ r.log, st⟩
      | .error e => ⟨.error e, o.calls ++ r.calls, o.log ++ r.log, st⟩

/-- insertArray: return an empty array at once when items is null,
undefined or empty; otherwise run the sequential loop, logging and
rethrowing the first error. -/
def MongoPackage.insertArray (st : MongoPackage) (dr : Driver) (items : ItemsArg)
    (updateIfExists : Bool) (model : Option Model) : OpOut (List Doc) :=
  match items with
  | .jsNull => ⟨.ok [], [], [.info "insertArray.items empty"], st⟩
  | .jsUndefined => ⟨.ok [], [], [.info "insertArray.items empty"], st⟩
  | .arr l =>
    if l.length = 0 then ⟨.ok [], [], [.info "insertArray.items empty"], st⟩
    else
      let r := st.insertLoop dr updateIfExists model l
      match r.result with
      | .ok _ => r
      | .error e => ⟨.error e, r.calls, r.log ++ [.err "Error inserting array:" e], st⟩

/-- Dynamic ids argument of deleteItems as Array.isArray distinguishes
it: an array of id values, or any non-array value. -/
inductive IdsArg where
  | arr (ids : List Value)
  | nonArray (v : Value)
deriving DecidableEq, Repr

/-- deleteItems: throw on a non-array input before any driver call;
otherwise deleteMany with the id-membership filter, logging the deleted
count.  Errors are logged and rethrown. -/
def MongoPackage.deleteItems (st : MongoPackage) (dr : Driver) (ids : IdsArg)
    (model : Option Model) : OpOut DeleteResult :=
  match ids with
  | .nonArray _ => ⟨.error notArrayErr, [], [.err "Error deleting items:" notArrayErr], st⟩
  | .arr l =>
    match st.getModel model with
    | .error e => ⟨.error e, [], [.err "Error deleting items:" e], st⟩
    | .ok activeModel =>
      match dr.deleteMany activeModel (.idIn l) with
      | .ok r =>
        ⟨.ok r, [.deleteMany activeModel (.idIn l)],
          [.info (toString r.deletedCount ++ " items deleted.")], st⟩
      | .error e =>
        ⟨.error e, [.deleteMany activeModel (.idIn l)], [.err "Error deleting items:" e], st⟩

/-- findItems: model.find with the query, a null projection and the
options passed verbatim; the result list is returned unchanged. -/
def MongoPackage.findItems (st : MongoPackage) (dr : Driver) (query : Query)
    (options : FindOpts) (model : Option Model) : OpOut (List Doc) :=
  match st.getModel model with
  | .error e => ⟨.error e, [], [.err "Error finding items:" e], st⟩
  | .ok activeModel =>
    match dr.find activeModel query none options with
    | .ok docs => ⟨.ok docs, [.find activeModel query none options], [], st⟩
    | .error e => ⟨.error e, [.find activeModel query none options], [.err "Error finding items:" e], st⟩

/-- runAggregation: model.aggregate with the pipeline passed verbatim;
the result list is returned unchanged. -/
def MongoPackage.runAggregation (st : MongoPackage) (dr : Driver) (pipeline : Pipeline)
    (model : Option Model) : OpOut (List Doc) :=
  match st.getModel model with
  | .error e => ⟨.error e, [], [.err "Error running aggregation:" e], st⟩
  | .ok activeModel =>
    match dr.aggregate activeModel pipeline with
    | .ok docs => ⟨.ok docs, [.aggregate activeModel pipeline], [], st⟩
    | .error e => ⟨.error e, [.aggregate activeModel pipeline], [.err "Error running aggregation:" e], st⟩

/-- Options object queryCollection hands to the raw find: each of the six
keys is copied from the caller options. -/
def queryCollectionOpts (o : QueryOpts) : QueryOpts :=
  { limit := o.limit, skip := o.skip, sort := o.sort, projection := o.projection,
    batchSize := o.batchSize, readPreference := o.readPreference }

/-- queryCollection: raw find on the named collection with the caller
filter and the copied options; the cursor is drained to an array. -/
def MongoPackage.queryCollection (st : MongoPackage) (dr : Driver) (collectionName : String)
    (filter : Query) (options : QueryOpts) : OpOut (List Doc) :=
  match dr.collFind collectionName filter (queryCollectionOpts options) with
  | .ok docs => ⟨.ok docs, [.collFind collectionName filter (queryCollectionOpts options)], [], st⟩
  | .error e =>
    ⟨.error e, [.collFind collectionName filter (queryCollectionOpts options)],
      [.err "Error in queryCollection:" e], st⟩

/-- Options object aggregateCollection hands to the raw aggregate:
allowDiskUse defaults to true when the caller left it unset (the nullish
coalescing in the source); the other two keys are copied. -/
def aggregateCollectionOpts (o : AggOpts) : AggOpts :=
  { allowDiskUse := some (o.allowDiskUse.getD true), maxTimeMS := o.maxTimeMS,
    bypassDocumentValidation := o.bypassDocumentValidation }

/-- aggregateCollection: raw aggregate on the named collection with the
caller pipeline and the constructed options; the cursor is drained to an
array. -/
def MongoPackage.aggregateCollection (st : MongoPackage) (dr : Driver) (collectionName : String)
    (pipeline : Pipeline) (options : AggOpts) : OpOut (List Doc) :=
  match dr.collAggregate collectionName pipeline (aggregateCollectionOpts options) with
  | .ok docs =>
    ⟨.ok docs, [.collAggregate collectionName pipeline (aggregateCollectionOpts options)], [], st⟩
  | .error e =>
    ⟨.error e, [.collAggregate collectionName pipeline (aggregateCollectionOpts options)],
      [.err "Error in aggregateCollection:" e], st⟩

/-- updateManyField: updateMany with the caller filter and a one-field
set document built from the field name and value, logging the modified
count.  Errors are logged and rethrown. -/
def MongoPackage.updateManyField (st : MongoPackage) (dr : Driver) (filter : Query)
    (fieldName : String) (value : Value) (model : Option Model) : OpOut UpdateResult :=
  match st.getModel model with
  | .error e => ⟨.error e, [], [.err "Error updating documents:" e], st⟩
  | .ok activeModel =>
    match dr.updateMany activeModel filter (.setField fieldName value) with
    | .ok r =>
      ⟨.ok r, [.updateMany activeModel filter (.setField fieldName value)],
        [.info (toString r.modifiedCount ++ " documents updated (field: " ++ fieldName ++ ").")], st⟩
    | .error e =>
      ⟨.error e, [.updateMany activeModel filter (.setField fieldName value)],
        [.err "Error updating documents:" e], st⟩

/-- View of the nullable result of the driver existence check as the
JavaScript value the driver hands back: the document or null. -/
def jsOfExists : Option Doc → Value
  | some d => .docV d
  | none => .nullV

/-- View of the facade existsItem boolean as a JavaScript value. -/
def jsOfBool (b : Bool) : Value := .boolV b

/-- Constructor settings object: an optional connection URI (none models a
missing, null or undefined mongoUri) and an optional default model. -/
structure Settings where
  mongoUri : Option String
  model : Option Model
deriving DecidableEq, Repr

/-- Constructor: throw when settings.mongoUri is falsy (absent or the
empty string; the quotes around mongoUri in the source message are
elided), otherwise store the URI and the optional default model and fire
the initial connect. -/
def MongoPackage.construct (settings : Settings) (dr : Driver) :
    Except Err (MongoPackage × OpOut Unit) :=
  match settings.mongoUri with
  | none => .error ⟨"Missing mongoUri in settings"⟩
  | some uri =>
    if uri = "" then .error ⟨"Missing mongoUri in settings"⟩
    else
      let st : MongoPackage := ⟨uri, settings.model⟩
      .ok (st, st.connect dr)

/-!
Modelled from the spec: the singleton/reconnect revision of the facade is
not among the source files; the spec describes it as keeping an
`instance` reference and an unsynchronized boolean `isConnecting` flag,
with a fixed-delay poll (busy-wait retry) so that concurrent connection
attempts do not both call the driver.  The model below embeds two
concurrent connection attempts as a transition system at event-loop
granularity: statements between awaits run atomically, interleaving
happens only at awaits.
-/

/-- Modelled from the spec: the shared singleton state of the reconnect
variant: the isConnecting flag, whether the instance reference is set,
and how many driver connect calls were issued so far. -/
structure ConnShared where
  isConnecting : Bool
  instanceSet : Bool
  driverCalls : Nat
deriving DecidableEq, Repr

/-- Modelled from the spec: the control point of one connection attempt:
about to check the singleton state, waiting in the fixed-delay poll,
inside the driver connect call, or finished. -/
inductive ConnPc where
  | start
  | waiting
  | connecting
  | done
deriving DecidableEq, Repr

/-- Modelled from the spec: the whole system: shared singleton state plus
the control points of two concurrent connection attempts. -/
structure ConnSys where
  shared : ConnShared
  pc1 : ConnPc
  pc2 : ConnPc
deriving DecidableEq, Repr

/-- Modelled from the spec: one atomic step of a single connection
attempt.  From start: return the existing instance, or wait when another
attempt is connecting, or set the flag and enter the driver connect.
While waiting: poll with a fixed delay as long as the flag is set, then
retry the check.  Leaving the driver connect stores the instance, counts
the driver call and clears the flag. -/
inductive TaskStep : ConnPc → ConnShared → ConnPc → ConnShared → Prop where
  | hit (sh : ConnShared) : sh.instanceSet = true → TaskStep .start sh .done sh
  | defer (sh : ConnShared) : sh.instanceSet = false → sh.isConnecting = true →
      TaskStep .start sh .waiting sh
  | acquire (sh : ConnShared) : sh.instanceSet = false → sh.isConnecting = false →
      TaskStep .start sh .connecting ⟨true, sh.instanceSet, sh.driverCalls⟩
  | poll (sh : ConnShared) : sh.isConnecting = true → TaskStep .waiting sh .waiting sh
  | retry (sh : ConnShared) : sh.isConnecting = false → TaskStep .waiting sh .start sh
  | finish (sh : ConnShared) :
      TaskStep .connecting sh .done ⟨false, true, sh.driverCalls + 1⟩

/-- Modelled from the spec: an interleaving step of the two concurrent
connection attempts: either attempt takes one atomic step. -/
inductive SysStep : ConnSys → ConnSys → Prop where
  | t1 {s : ConnSys} {p : ConnPc} {sh : ConnShared} :
      TaskStep s.pc1 s.shared p sh → SysStep s ⟨sh, p, s.pc2⟩
  | t2 {s : ConnSys} {p : ConnPc} {sh : ConnShared} :
      TaskStep s.pc2 s.shared p sh → SysStep s ⟨sh, s.pc1, p⟩

/-- Modelled from the spec: initial state: no instance, flag clear, no
driver call yet, both attempts about to run. -/
def connInit : ConnSys := ⟨⟨false, false, 0⟩, .start, .start⟩

/-- Modelled from the spec: the states the two concurrent connection
attempts can reach from the initial state. -/
def ConnReachable (s : ConnSys) : Prop := Relation.ReflTransGen SysStep connInit s

/-- Inductive invariant of the singleton model: the driver call count
follows the instance flag, the isConnecting flag is set exactly while
some attempt is inside the driver connect, at most one attempt is inside
it, no attempt is inside it once the instance exists, and a finished
attempt implies the instance exists. -/
def ConnInv (s : ConnSys) : Prop :=
  (s.shared.driverCalls = if s.shared.instanceSet then 1 else 0) ∧
  (s.shared.isConnecting = true ↔ (s.pc1 = .connecting ∨ s.pc2 = .connecting)) ∧
  ¬(s.pc1 = .connecting ∧ s.pc2 = .connecting) ∧
  (s.shared.instanceSet = true → s.pc1 ≠ .connecting ∧ s.pc2 ≠ .connecting) ∧
  ((s.pc1 = .done ∨ s.pc2 = .done) → s.shared.instanceSet = true)

/-- Concrete model used in witnesses and counterexamples. -/
def m0 : Model := ⟨"TestModel"⟩

/-- Concrete driver error used in witnesses. -/
def e0 : Err := ⟨"driver failure"⟩

/-- Concrete document used in witnesses and counterexamples. -/
def doc0 : Doc := ⟨"id0", [("nome", "Test")]⟩

/-- Second concrete document, on which the failing driver fails. -/
def doc1 : Doc := ⟨"id1", []⟩

/-- Concrete query used in witnesses. -/
def q0 : Query := ⟨"q0"⟩

/-- Concrete pipeline used in witnesses. -/
def p0 : Pipeline := ⟨["match"]⟩

/-- Concrete find options used in witnesses. -/
def fo0 : FindOpts := ⟨"limit 10"⟩

/-- Concrete facade state with a default model. -/
def st0 : MongoPackage := ⟨"mongodb://localhost:27017/test", some m0⟩

/-- Concrete facade state without a default model. -/
def stNoModel : MongoPackage := ⟨"mongodb://localhost:27017/test", none⟩

/-- Driver on which every primitive succeeds, with fixed responses. -/
def drOk : Driver where
  findByIdAndUpdate := fun _ _ u _ =>
    match u with
    | .raw d => .ok d
    | .set d => .ok d
    | .setField _ _ => .ok doc0
  save := fun _ _ => .ok ()
  existsD := fun _ _ => .ok (some doc0)
  deleteMany := fun _ _ => .ok ⟨2⟩
  find := fun _ _ _ _ => .ok [doc0]
  aggregate := fun _ _ => .ok [doc0]
  updateMany := fun _ _ _ => .ok ⟨3⟩
  connect := fun _ => .ok ()
  disconnect := .ok ()
  collFind := fun _ _ _ => .ok [doc0]
  collAggregate := fun _ _ _ => .ok [doc0]

/-- Driver on which every primitive fails with the fixed error. -/
def drErr : Driver where
  findByIdAndUpdate := fun _ _ _ _ => .error e0
  save := fun _ _ => .error e0
  existsD := fun _ _ => .error e0
  deleteMany := fun _ _ => .error e0
  find := fun _ _ _ _ => .error e0
  aggregate := fun _ _ => .error e0
  updateMany := fun _ _ _ => .error e0
  connect := fun _ => .error e0
  disconnect := .error e0
  collFind := fun _ _ _ => .error e0
  collAggregate := fun _ _ _ => .error e0

/-- Driver whose save fails exactly on the second concrete document and
succeeds otherwise; used to witness first-error propagation. -/
def drFail1 : Driver where
  findByIdAndUpdate := fun _ _ u _ =>
    match u with
    | .raw d => .ok d
    | .set d => .ok d
    | .setField _ _ => .ok doc0
  save := fun _ d => if d = doc1 then .error e0 else .ok ()
  existsD := fun _ _ => .ok (some doc0)
  deleteMany := fun _ _ => .ok ⟨2⟩
  find := fun _ _ _ _ => .ok [doc0]
  aggregate := fun _ _ => .ok [doc0]
  updateMany := fun _ _ _ => .ok ⟨3⟩
  connect := fun _ => .ok ()
  disconnect := .ok ()
  collFind := fun _ _ _ => .ok [doc0]
  collAggregate := fun _ _ _ => .ok [doc0]

/-- Result document of one insertItem call, with the item itself as the
(unused under a success hypothesis) fallback in the error branch. -/
def insertedDoc (st : MongoPackage) (dr : Driver) (b : Bool) (model : Option Model)
    (d : Doc) : Doc :=
  match (st.insertItem dr d b model).result with
  | .ok v => v
  | .error _ => d

deriving instance DecidableEq for Except

/-- The invariant holds in the initial state of the singleton model. -/
theorem connInv_init : ConnInv connInit := by
  simp [ConnInv, connInit]

/-- The invariant is preserved by every interleaving step of the
singleton model. -/
theorem connInv_step {s s' : ConnSys} (hs : ConnInv s) (h : SysStep s s') : ConnInv s' := by
  obtain ⟨⟨ic, inst, dc⟩, p1, p2⟩ := s
  obtain ⟨h1, h2, h3, h4, h5⟩ := hs
  cases h with
  | t1 ht => cases ht <;> simp_all [ConnInv]
  | t2 ht => cases ht <;> simp_all [ConnInv]

/-- Every reachable state of the singleton model satisfies the
invariant. -/
theorem connReachable_inv {s : ConnSys} (h : ConnReachable s) : ConnInv s := by
  induction h with
  | refl => exact connInv_init
  | tail _ hstep ih => exact connInv_step ih hstep

/-- C6: in the singleton/reconnect model built from the spec (an
`instance` reference plus an unsynchronized `isConnecting` flag with a
fixed-delay poll, interleaved at event-loop granularity), every state
reachable from two concurrently started connection attempts has at most
one driver connect call issued, and exactly one once both attempts have
finished. -/
theorem c6_singleton_connect (s : ConnSys) (h : ConnReachable s) :
    s.shared.driverCalls ≤ 1 ∧
    (s.pc1 = .done ∧ s.pc2 = .done → s.shared.driverCalls = 1) := by
  obtain ⟨h1, h2, h3, h4, h5⟩ := connReachable_inv h
  refine ⟨?_, ?_⟩
  · rw [h1]; cases s.shared.instanceSet <;> simp
  · rintro ⟨hd1, _⟩
    rw [h1, h5 (Or.inl hd1)]
    simp

/-- Witness for C6: a complete interleaving in which the first attempt
acquires the flag and connects while the second defers, polls, retries
and then finds the instance; the final state has exactly one driver
call. -/
theorem c6_singleton_connect_witness :
    (⟨⟨false, true, 1⟩, .done, .done⟩ : ConnSys).shared.driverCalls ≤ 1 ∧
    ((⟨⟨false, true, 1⟩, .done, .done⟩ : ConnSys).pc1 = .done ∧
      (⟨⟨false, true, 1⟩, .done, .done⟩ : ConnSys).pc2 = .done →
      (⟨⟨false, true, 1⟩, .done, .done⟩ : ConnSys).shared.driverCalls = 1) :=
  c6_singleton_connect _
    (Relation.ReflTransGen.tail
      (Relation.ReflTransGen.tail
        (Relation.ReflTransGen.tail
          (Relation.ReflTransGen.tail
            (Relation.ReflTransGen.tail
              (Relation.ReflTransGen.tail Relation.ReflTransGen.refl
                (SysStep.t1 (TaskStep.acquire _ rfl rfl)))
              (SysStep.t2 (TaskStep.defer _ rfl rfl)))
            (SysStep.t2 (TaskStep.poll _ rfl)))
          (SysStep.t1 (TaskStep.finish _)))
        (SysStep.t2 (TaskStep.retry _ rfl)))
      (SysStep.t2 (TaskStep.hit _ rfl)))

/-- When every item in the list inserts successfully, the sequential loop
returns one result per item in order, and its driver calls and log are
the in-order concatenation of the per-item ones. -/
theorem insertLoop_ok (st : MongoPackage) (dr : Driver) (b : Bool) (model : Option Model) :
    ∀ (l : List Doc),
      (∀ d ∈ l, ((st.insertItem dr d b model).result).isOk = true) →
      st.insertLoop dr b model l =
        ⟨.ok (l.map (insertedDoc st dr b model)),
         l.flatMap (fun d => (st.insertItem dr d b model).calls),
         l.flatMap (fun d => (st.insertItem dr d b model).log), st⟩ := by
  intro l
  induction l with
  | nil => intro _; rfl
  | cons d rest ih =>
    intro h
    have hd := h d (by simp)
    obtain ⟨v, hv⟩ : ∃ v, (st.insertItem dr d b model).result = .ok v := by
      cases hres : (st.insertItem dr d b model).result with
      | ok v => exact ⟨v, rfl⟩
      | error e => rw [hres] at hd; simp [Except.isOk, Except.toBool] at hd
    have hrest := ih (fun x hx => h x (by simp [hx]))
    simp [MongoPackage.insertLoop, hv, hrest, insertedDoc]

/-- When a prefix inserts successfully and the next item fails, the
sequential loop stops there: it propagates that first error, and its
driver calls and log are those of the prefix and the failing item only. -/
theorem insertLoop_err (st : MongoPackage) (dr : Driver) (b : Bool) (model : Option Model) :
    ∀ (l₁ : List Doc) (d : Doc) (l₂ : List Doc) (e : Err),
      (∀ x ∈ l₁, ((st.insertItem dr x b model).result).isOk = true) →
      (st.insertItem dr d b model).result = .error e →
      st.insertLoop dr b model (l₁ ++ d :: l₂) =
        ⟨.error e,
         (l₁ ++ [d]).flatMap (fun x => (st.insertItem dr x b model).calls),
         (l₁ ++ [d]).flatMap (fun x => (st.insertItem dr x b model).log), st⟩ := by
  intro l₁
  induction l₁ with
  | nil =>
    intro d l₂ e _ he
    simp [MongoPackage.insertLoop, he]
  | cons x rest ih =>
    intro d l₂ e h he
    have hx := h x (by simp)
    obtain ⟨v, hv⟩ : ∃ v, (st.insertItem dr x b model).result = .ok v := by
      cases hres : (st.insertItem dr x b model).result with
      | ok v => exact ⟨v, rfl⟩
      | error e2 => rw [hres] at hx; simp [Except.isOk, Except.toBool] at hx
    have hrest := ih d l₂ e (fun y hy => h y (by simp [hy])) he
    simp [MongoPackage.insertLoop, hv, hrest]

/-- The sequential insert loop never touches the facade state. -/
theorem insertLoop_post (st : MongoPackage) (dr : Driver) (b : Bool) (model : Option Model) :
    ∀ l, (st.insertLoop dr b model l).post = st := by
  intro l
  cases l with
  | nil => rfl
  | cons d rest =>
    cases h1 : (st.insertItem dr d b model).result <;>
      simp [MongoPackage.insertLoop, h1] <;>
      cases h2 : (st.insertLoop dr b model rest).result <;> simp [h2]

/-- C3: insertArray on a non-empty list processes the items sequentially
in list order: when every insertItem succeeds the returned list has one
result per item in the same order and the driver trace is the in-order
concatenation of the per-item traces; when the prefix succeeds and the
next item fails, that first error is propagated (no partial result list
is returned) and only the prefix plus the failing item reached the
driver. -/
theorem c3_insertArray_sequential (st : MongoPackage) (dr : Driver) (b : Bool)
    (model : Option Model) :
    (∀ (l : List Doc), l ≠ [] →
      (∀ d ∈ l, ((st.insertItem dr d b model).result).isOk = true) →
      (st.insertArray dr (.arr l) b model).result =
        .ok (l.map (insertedDoc st dr b model)) ∧
      (st.insertArray dr (.arr l) b model).calls =
        l.flatMap (fun d => (st.insertItem dr d b model).calls)) ∧
    (∀ (l₁ : List Doc) (d : Doc) (l₂ : List Doc) (e : Err),
      (∀ x ∈ l₁, ((st.insertItem dr x b model).result).isOk = true) →
      (st.insertItem dr d b model).result = .error e →
      (st.insertArray dr (.arr (l₁ ++ d :: l₂)) b model).result = .error e ∧
      (st.insertArray dr (.arr (l₁ ++ d :: l₂)) b model).calls =
        (l₁ ++ [d]).flatMap (fun x => (st.insertItem dr x b model).calls)) := by
  constructor
  · intro l hne h
    have hl := insertLoop_ok st dr b model l h
    have hlen : ¬ l.length = 0 := by simpa using hne
    simp [MongoPackage.insertArray, hlen, hl]
  · intro l₁ d l₂ e h he
    have hl := insertLoop_err st dr b model l₁ d l₂ e h he
    have hlen : ¬ (l₁ ++ d :: l₂).length = 0 := by simp
    simp [MongoPackage.insertArray, hlen, hl]

/-- Witness for C3: on the all-success driver a singleton batch returns
one result with its trace, and on the driver that fails exactly on the
second document the batch with a good first document propagates that
error with the truncated trace. -/
theorem c3_insertArray_sequential_witness :
    ((st0.insertArray drFail1 (.arr [doc0]) false none).result =
        .ok ([doc0].map (insertedDoc st0 drFail1 false none)) ∧
      (st0.insertArray drFail1 (.arr [doc0]) false none).calls =
        [doc0].flatMap (fun d => (st0.insertItem drFail1 d false none).calls)) ∧
    ((st0.insertArray drFail1 (.arr ([doc0] ++ doc1 :: [])) false none).result = .error e0 ∧
      (st0.insertArray drFail1 (.arr ([doc0] ++ doc1 :: [])) false none).calls =
        ([doc0] ++ [doc1]).flatMap (fun x => (st0.insertItem drFail1 x false none).calls)) :=
  ⟨(c3_insertArray_sequential st0 drFail1 false none).1 [doc0] (by decide) (by decide),
   (c3_insertArray_sequential st0 drFail1 false none).2 [doc0] doc1 [] e0 (by decide)
     (by decide)⟩

/-- C9: insertArray with null, undefined or an empty array returns an
empty array at once, issues no driver call, and only logs the empty-batch
line, for every updateIfExists flag and model argument. -/
theorem c9_insertArray_empty (st : MongoPackage) (dr : Driver) (b : Bool)
    (model : Option Model) :
    st.insertArray dr .jsNull b model = ⟨.ok [], [], [.info "insertArray.items empty"], st⟩ ∧
    st.insertArray dr .jsUndefined b model = ⟨.ok [], [], [.info "insertArray.items empty"], st⟩ ∧
    st.insertArray dr (.arr []) b model = ⟨.ok [], [], [.info "insertArray.items empty"], st⟩ :=
  ⟨rfl, rfl, rfl⟩

/-- C10: deleteItems on a non-array input throws the fixed input error
with no driver call issued (so the database is untouched), and on an
array it issues exactly one deleteMany whose filter is id-membership in
the given ids, returning the driver result on success. -/
theorem c10_deleteItems_guard :
    (∀ (st : MongoPackage) (dr : Driver) (v : Value) (model : Option Model),
      (st.deleteItems dr (.nonArray v) model).result = .error notArrayErr ∧
      (st.deleteItems dr (.nonArray v) model).calls = [] ∧
      notArrayErr.msg = "Input must be an array of _id") ∧
    (∀ (st : MongoPackage) (dr : Driver) (ids : List Value) (model : Option Model) (am : Model),
      st.getModel model = .ok am →
      (st.deleteItems dr (.arr ids) model).calls = [.deleteMany am (.idIn ids)] ∧
      (∀ (r : DeleteResult), dr.deleteMany am (.idIn ids) = .ok r →
        (st.deleteItems dr (.arr ids) model).result = .ok r) ∧
      (∀ (qsem : Query → Doc → Bool) (d : Doc),
        (DelFilter.idIn ids).matches qsem d = ids.contains (.strV d._id))) := by
  constructor
  · intro st dr v model
    exact ⟨rfl, rfl, rfl⟩
  · intro st dr ids model am hm
    refine ⟨?_, ?_, fun _ _ => rfl⟩
    · cases hres : dr.deleteMany am (.idIn ids) <;>
        simp [MongoPackage.deleteItems, hm, hres]
    · intro r hr
      simp [MongoPackage.deleteItems, hm, hr]

/-- Witness for C10: a concrete non-array input is rejected without any
driver call, and a concrete id array produces exactly the membership
deleteMany call with the driver result returned. -/
theorem c10_deleteItems_guard_witness :
    ((st0.deleteItems drOk (.nonArray (.strV "id0")) none).result = .error notArrayErr ∧
      (st0.deleteItems drOk (.nonArray (.strV "id0")) none).calls = [] ∧
      notArrayErr.msg = "Input must be an array of _id") ∧
    ((st0.deleteItems drOk (.arr [.strV "id0", .strV "id1"]) none).calls =
      [.deleteMany m0 (.idIn [.strV "id0", .strV "id1"])]) :=
  ⟨(c10_deleteItems_guard.1 st0 drOk (.strV "id0") none),
   ((c10_deleteItems_guard.2 st0 drOk [.strV "id0", .strV "id1"] none m0 rfl).1)⟩

/-- C8: existsItem returns a strict boolean built from the driver result
by the double negation: true exactly when the existence check yielded a
document, false exactly when it yielded null. -/
theorem c8_existsItem_boolean (st : MongoPackage) (dr : Driver) (q : Query)
    (model : Option Model) (am : Model) (o : Option Doc)
    (hm : st.getModel model = .ok am) (hd : dr.existsD am q = .ok o) :
    (st.existsItem dr q model).result = .ok o.isSome ∧
    ((st.existsItem dr q model).result = .ok true ↔ o ≠ none) ∧
    ((st.existsItem dr q model).result = .ok false ↔ o = none) := by
  have h1 : (st.existsItem dr q model).result = .ok o.isSome := by
    simp [MongoPackage.existsItem, hm, hd]
  refine ⟨h1, ?_, ?_⟩ <;> rw [h1] <;> cases o <;> simp

/-- Witness for C8: on the driver whose existence check returns a
document, existsItem returns true. -/
theorem c8_existsItem_boolean_witness :
    (st0.existsItem drOk q0 none).result = .ok (some doc0).isSome ∧
    ((st0.existsItem drOk q0 none).result = .ok true ↔ some doc0 ≠ none) ∧
    ((st0.existsItem drOk q0 none).result = .ok false ↔ some doc0 = none) :=
  c8_existsItem_boolean st0 drOk q0 none m0 (some doc0) rfl rfl

/-- C7: the facade holds one optional default model fixed at
construction; getModel prefers the per-call model, falls back to the
default, and throws the fixed no-model error exactly when neither
exists; and no operation ever changes the stored URI or default model. -/
theorem c7_default_model :
    (∀ (st : MongoPackage) (m : Model), st.getModel (some m) = .ok m) ∧
    (∀ (st : MongoPackage) (d : Model), st.defaultModel = some d → st.getModel none = .ok d) ∧
    (∀ (st : MongoPackage) (model : Option Model),
      st.getModel model = .error noModelErr ↔ model = none ∧ st.defaultModel = none) ∧
    noModelErr.msg = "No model specified or default model provided" ∧
    (∀ (uri : String) (model : Option Model) (dr : Driver), ¬ uri = "" →
      MongoPackage.construct ⟨some uri, model⟩ dr =
        .ok (⟨uri, model⟩, MongoPackage.connect ⟨uri, model⟩ dr)) ∧
    (∀ st dr item b model, (MongoPackage.insertItem st dr item b model).post = st) ∧
    (∀ st dr q model, (MongoPackage.existsItem st dr q model).post = st) ∧
    (∀ st dr items b model, (MongoPackage.insertArray st dr items b model).post = st) ∧
    (∀ st dr ids model, (MongoPackage.deleteItems st dr ids model).post = st) ∧
    (∀ st dr q o model, (MongoPackage.findItems st dr q o model).post = st) ∧
    (∀ st dr p model, (MongoPackage.runAggregation st dr p model).post = st) ∧
    (∀ st dr, (MongoPackage.connect st dr).post = st) ∧
    (∀ st dr, (MongoPackage.disconnect st dr).post = st) ∧
    (∀ st dr n f o, (MongoPackage.queryCollection st dr n f o).post = st) ∧
    (∀ st dr n p o, (MongoPackage.aggregateCollection st dr n p o).post = st) ∧
    (∀ st dr f fn v model, (MongoPackage.updateManyField st dr f fn v model).post = st) := by
  refine ⟨?_, ?_, ?_, rfl, ?_, ?_, ?_, ?_, ?_, ?_, ?_, ?_, ?_, ?_, ?_, ?_⟩
  · intro st m
    cases h : st.defaultModel <;> simp [MongoPackage.getModel, h]
  · intro st d h
    simp [MongoPackage.getModel, h]
  · intro st model
    cases model with
    | some m => cases h : st.defaultModel <;> simp [MongoPackage.getModel, h]
    | none =>
      cases h : st.defaultModel <;> simp [MongoPackage.getModel, h]
  · intro uri model dr h
    simp [MongoPackage.construct, h]
  · intro st dr item b model
    cases hm : st.getModel model <;> cases b <;> simp [MongoPackage.insertItem, hm]
    · cases hres : dr.save _ item <;> simp [hres]
    · cases hres : dr.findByIdAndUpdate _ item._id (.set item) ⟨true, true⟩ <;> simp [hres]
  · intro st dr q model
    cases hm : st.getModel model <;> simp [MongoPackage.existsItem, hm]
    cases hres : dr.existsD _ q <;> simp [hres]
  · intro st dr items b model
    cases items with
    | jsNull => rfl
    | jsUndefined => rfl
    | arr l =>
      by_cases hl : l.length = 0 <;> simp [MongoPackage.insertArray, hl]
      cases hres : (st.insertLoop dr b model l).result <;> simp [hres]
      exact insertLoop_post st dr b model l
  · intro st dr ids model
    cases ids with
    | nonArray v => rfl
    | arr l =>
      cases hm : st.getModel model <;> simp [MongoPackage.deleteItems, hm]
      cases hres : dr.deleteMany _ (.idIn l) <;> simp [hres]
  · intro st dr q o model
    cases hm : st.getModel model <;> simp [MongoPackage.findItems, hm]
    cases hres : dr.find _ q none o <;> simp [hres]
  · intro st dr p model
    cases hm : st.getModel model <;> simp [MongoPackage.runAggregation, hm]
    cases hres : dr.aggregate _ p <;> simp [hres]
  · intro st dr
    cases hres : dr.connect st.mongoUri <;> simp [MongoPackage.connect, hres]
  · intro st dr
    cases hres : dr.disconnect <;> simp [MongoPackage.disconnect, hres]
  · intro st dr n f o
    cases hres : dr.collFind n f (queryCollectionOpts o) <;>
      simp [MongoPackage.queryCollection, hres]
  · intro st dr n p o
    cases hres : dr.collAggregate n p (aggregateCollectionOpts o) <;>
      simp [MongoPackage.aggregateCollection, hres]
  · intro st dr f fn v model
    cases hm : st.getModel model <;> simp [MongoPackage.updateManyField, hm]
    cases hres : dr.updateMany _ f (.setField fn v) <;> simp [hres]

/-- Witness for C7: concrete dispatches of getModel, the no-model error
on the modelless facade, a concrete construction, and one concrete
operation leaving the state unchanged. -/
theorem c7_default_model_witness :
    st0.getModel (some m0) = .ok m0 ∧
    st0.getModel none = .ok m0 ∧
    (stNoModel.getModel none = .error noModelErr ↔ none = (none : Option Model) ∧
      stNoModel.defaultModel = none) ∧
    (MongoPackage.insertItem st0 drOk doc0 false none).post = st0 :=
  ⟨c7_default_model.1 st0 m0,
   c7_default_model.2.1 st0 m0 rfl,
   c7_default_model.2.2.1 stNoModel none,
   c7_default_model.2.2.2.2.2.1 st0 drOk doc0 false none⟩

/-- Counterexample for C1: existsItem does not return the driver result
unchanged: on a driver whose existence check yields a document, the
facade returns the boolean true, not that document. -/
theorem c1_passthrough_counterexample :
    Except.map jsOfBool (st0.existsItem drOk q0 none).result ≠
      Except.map jsOfExists (drOk.existsD m0 q0) := by
  decide

/-- C1 amended: each wrapper method issues exactly one driver call;
findItems and runAggregation forward arguments and results unchanged,
while insertItem (upsert) passes the id read from the item and the item
wrapped in a set operator, plain insertItem saves and returns the
constructed instance, deleteItems wraps the ids into a membership
filter, updateManyField wraps the value into a one-field set document,
and existsItem coerces the nullable driver result to a boolean;
successful driver results are otherwise returned unchanged. -/
theorem c1_passthrough_amended :
    (∀ (st : MongoPackage) (dr : Driver) (item : Doc) (model : Option Model) (am : Model),
      st.getModel model = .ok am →
      (st.insertItem dr item true model).calls =
        [.findByIdAndUpdate am item._id (.set item) ⟨true, true⟩] ∧
      (∀ d, dr.findByIdAndUpdate am item._id (.set item) ⟨true, true⟩ = .ok d →
        (st.insertItem dr item true model).result = .ok d) ∧
      (st.insertItem dr item false model).calls = [.save am item] ∧
      (dr.save am item = .ok () → (st.insertItem dr item false model).result = .ok item)) ∧
    (∀ (st : MongoPackage) (dr : Driver) (q : Query) (model : Option Model) (am : Model),
      st.getModel model = .ok am →
      (st.existsItem dr q model).calls = [.existsD am q] ∧
      (∀ o, dr.existsD am q = .ok o → (st.existsItem dr q model).result = .ok o.isSome)) ∧
    (∀ (st : MongoPackage) (dr : Driver) (ids : List Value) (model : Option Model) (am : Model),
      st.getModel model = .ok am →
      (st.deleteItems dr (.arr ids) model).calls = [.deleteMany am (.idIn ids)] ∧
      (∀ r, dr.deleteMany am (.idIn ids) = .ok r →
        (st.deleteItems dr (.arr ids) model).result = .ok r)) ∧
    (∀ (st : MongoPackage) (dr : Driver) (q : Query) (o : FindOpts) (model : Option Model)
      (am : Model), st.getModel model = .ok am →
      (st.findItems dr q o model).calls = [.find am q none o] ∧
      (∀ docs, dr.find am q none o = .ok docs → (st.findItems dr q o model).result = .ok docs)) ∧
    (∀ (st : MongoPackage) (dr : Driver) (p : Pipeline) (model : Option Model) (am : Model),
      st.getModel model = .ok am →
      (st.runAggregation dr p model).calls = [.aggregate am p] ∧
      (∀ docs, dr.aggregate am p = .ok docs →
        (st.runAggregation dr p model).result = .ok docs)) ∧
    (∀ (st : MongoPackage) (dr : Driver) (f : Query) (fn : String) (v : Value)
      (model : Option Model) (am : Model), st.getModel model = .ok am →
      (st.updateManyField dr f fn v model).calls = [.updateMany am f (.setField fn v)] ∧
      (∀ r, dr.updateMany am f (.setField fn v) = .ok r →
        (st.updateManyField dr f fn v model).result = .ok r)) := by
  refine ⟨?_, ?_, ?_, ?_, ?_, ?_⟩
  · intro st dr item model am hm
    refine ⟨?_, ?_, ?_, ?_⟩
    · cases hres : dr.findByIdAndUpdate am item._id (.set item) ⟨true, true⟩ <;>
        simp [MongoPackage.insertItem, hm, hres]
    · intro d hd
      simp [MongoPackage.insertItem, hm, hd]
    · cases hres : dr.save am item <;> simp [MongoPackage.insertItem, hm, hres]
    · intro hs
      simp [MongoPackage.insertItem, hm, hs]
  · intro st dr q model am hm
    refine ⟨?_, ?_⟩
    · cases hres : dr.existsD am q <;> simp [MongoPackage.existsItem, hm, hres]
    · intro o ho
      simp [MongoPackage.existsItem, hm, ho]
  · intro st dr ids model am hm
    refine ⟨?_, ?_⟩
    · cases hres : dr.deleteMany am (.idIn ids) <;> simp [MongoPackage.deleteItems, hm, hres]
    · intro r hr
      simp [MongoPackage.deleteItems, hm, hr]
  · intro st dr q o model am hm
    refine ⟨?_, ?_⟩
    · cases hres : dr.find am q none o <;> simp [MongoPackage.findItems, hm, hres]
    · intro docs hd
      simp [MongoPackage.findItems, hm, hd]
  · intro st dr p model am hm
    refine ⟨?_, ?_⟩
    · cases hres : dr.aggregate am p <;> simp [MongoPackage.runAggregation, hm, hres]
    · intro docs hd
      simp [MongoPackage.runAggregation, hm, hd]
  · intro st dr f fn v model am hm
    refine ⟨?_, ?_⟩
    · cases hres : dr.updateMany am f (.setField fn v) <;>
        simp [MongoPackage.updateManyField, hm, hres]
    · intro r hr
      simp [MongoPackage.updateManyField, hm, hr]

/-- Witness for C1 amended: the concrete existsItem call issues exactly
one driver existence check and booleanizes its result. -/
theorem c1_passthrough_amended_witness :
    (st0.existsItem drOk q0 none).calls = [.existsD m0 q0] ∧
    (∀ o, drOk.existsD m0 q0 = .ok o → (st0.existsItem drOk q0 none).result = .ok o.isSome) :=
  c1_passthrough_amended.2.1 st0 drOk q0 none m0 rfl

/-- Counterexample for C4: insertItem in upsert mode does not pass the
document as-is: the driver receives the document wrapped in a set
operator (and the id read out of the document), not the plain
document. -/
theorem c4_opacity_counterexample :
    (st0.insertItem drOk doc0 true none).calls =
      [.findByIdAndUpdate m0 doc0._id (.set doc0) ⟨true, true⟩] ∧
    UpdateArg.set doc0 ≠ UpdateArg.raw doc0 ∧
    (st0.insertItem drOk doc0 true none).calls ≠
      [.findByIdAndUpdate m0 doc0._id (.raw doc0) ⟨true, true⟩] := by
  refine ⟨rfl, by decide, by decide⟩

/-- C4 amended: the facade reads only the id field of a document:
insertItem in upsert mode passes the id read from the item and the item
wrapped in a set operator, and in plain mode hands the document to the
model constructor and save unchanged. -/
theorem c4_opacity_amended (st : MongoPackage) (dr : Driver) (item : Doc)
    (model : Option Model) (am : Model) (hm : st.getModel model = .ok am) :
    (st.insertItem dr item true model).calls =
      [.findByIdAndUpdate am item._id (.set item) ⟨true, true⟩] ∧
    (st.insertItem dr item false model).calls = [.save am item] := by
  constructor
  · cases hres : dr.findByIdAndUpdate am item._id (.set item) ⟨true, true⟩ <;>
      simp [MongoPackage.insertItem, hm, hres]
  · cases hres : dr.save am item <;> simp [MongoPackage.insertItem, hm, hres]

/-- Witness for C4 amended: the concrete calls of the two insert modes. -/
theorem c4_opacity_amended_witness :
    (st0.insertItem drOk doc0 true none).calls =
      [.findByIdAndUpdate m0 doc0._id (.set doc0) ⟨true, true⟩] ∧
    (st0.insertItem drOk doc0 false none).calls = [.save m0 doc0] :=
  c4_opacity_amended st0 drOk doc0 none m0 rfl

/-- Counterexample for C5: aggregateCollection does not leave an omitted
option unset: with allowDiskUse omitted by the caller the driver
receives allowDiskUse set to true. -/
theorem c5_options_counterexample :
    (st0.aggregateCollection drOk "ordini" p0 ⟨none, none, none⟩).calls =
      [.collAggregate "ordini" p0 ⟨some true, none, none⟩] ∧
    aggregateCollectionOpts ⟨none, none, none⟩ ≠ ⟨none, none, none⟩ := by
  refine ⟨rfl, by decide⟩

/-- C5 amended: queryCollection forwards the caller filter and the six
named options unchanged; aggregateCollection forwards the pipeline,
maxTimeMS and bypassDocumentValidation unchanged and forwards a
caller-supplied allowDiskUse unchanged, but defaults allowDiskUse to
true when the caller omits it; both return the driver result
unchanged. -/
theorem c5_raw_delegation_amended :
    (∀ (st : MongoPackage) (dr : Driver) (n : String) (f : Query) (o : QueryOpts),
      queryCollectionOpts o = o ∧
      (st.queryCollection dr n f o).calls = [.collFind n f o] ∧
      (∀ docs, dr.collFind n f (queryCollectionOpts o) = .ok docs →
        (st.queryCollection dr n f o).result = .ok docs)) ∧
    (∀ (st : MongoPackage) (dr : Driver) (n : String) (p : Pipeline) (o : AggOpts),
      (st.aggregateCollection dr n p o).calls =
        [.collAggregate n p ⟨some (o.allowDiskUse.getD true), o.maxTimeMS,
          o.bypassDocumentValidation⟩] ∧
      (∀ b, o.allowDiskUse = some b → (aggregateCollectionOpts o).allowDiskUse = some b) ∧
      (∀ docs, dr.collAggregate n p (aggregateCollectionOpts o) = .ok docs →
        (st.aggregateCollection dr n p o).result = .ok docs)) := by
  constructor
  · intro st dr n f o
    have he : queryCollectionOpts o = o := rfl
    refine ⟨he, ?_, ?_⟩
    · cases hres : dr.collFind n f o <;>
        simp [MongoPackage.queryCollection, he, hres]
    · intro docs hd
      simp [MongoPackage.queryCollection, hd]
  · intro st dr n p o
    refine ⟨?_, ?_, ?_⟩
    · cases hres : dr.collAggregate n p ⟨some (o.allowDiskUse.getD true), o.maxTimeMS,
        o.bypassDocumentValidation⟩ <;>
        simp [MongoPackage.aggregateCollection, aggregateCollectionOpts, hres]
    · intro b hb
      simp [aggregateCollectionOpts, hb]
    · intro docs hd
      simp [MongoPackage.aggregateCollection, hd]

/-- Witness for C5 amended: concrete raw find and aggregate calls with
supplied and omitted options. -/
theorem c5_raw_delegation_amended_witness :
    (queryCollectionOpts ⟨some 5, none, some "nome", none, none, none⟩ =
      ⟨some 5, none, some "nome", none, none, none⟩ ∧
     (st0.queryCollection drOk "utenti" q0 ⟨some 5, none, some "nome", none, none, none⟩).calls =
      [.collFind "utenti" q0 ⟨some 5, none, some "nome", none, none, none⟩] ∧
     (∀ docs, drOk.collFind "utenti" q0
        (queryCollectionOpts ⟨some 5, none, some "nome", none, none, none⟩) = .ok docs →
      (st0.queryCollection drOk "utenti" q0
        ⟨some 5, none, some "nome", none, none, none⟩).result = .ok docs)) ∧
    ((st0.aggregateCollection drOk "ordini" p0 ⟨some false, some 9, none⟩).calls =
      [.collAggregate "ordini" p0 ⟨some ((some false).getD true), some 9, none⟩] ∧
     (∀ b, (some false : Option Bool) = some b →
      (aggregateCollectionOpts ⟨some false, some 9, none⟩).allowDiskUse = some b) ∧
     (∀ docs, drOk.collAggregate "ordini" p0
        (aggregateCollectionOpts ⟨some false, some 9, none⟩) = .ok docs →
      (st0.aggregateCollection drOk "ordini" p0 ⟨some false, some 9, none⟩).result = .ok docs)) :=
  ⟨c5_raw_delegation_amended.1 st0 drOk "utenti" q0 ⟨some 5, none, some "nome", none, none, none⟩,
   c5_raw_delegation_amended.2 st0 drOk "ordini" p0 ⟨some false, some 9, none⟩⟩

/-- C2: every facade operation, on a driver failure, logs the error with
its fixed message and re-raises exactly the same error object; the log
is the single error line (plus the outer batch line for insertArray) and
nothing is retried, swallowed or transformed. -/
theorem c2_log_and_rethrow :
    (∀ (st : MongoPackage) (dr : Driver) (e : Err), dr.connect st.mongoUri = .error e →
      (st.connect dr).result = .error e ∧
      (st.connect dr).log = [.err "Error connecting to MongoDB:" e]) ∧
    (∀ (st : MongoPackage) (dr : Driver) (e : Err), dr.disconnect = .error e →
      (st.disconnect dr).result = .error e ∧
      (st.disconnect dr).log = [.err "Error disconnecting from MongoDB:" e]) ∧
    (∀ (st : MongoPackage) (dr : Driver) (item : Doc) (model : Option Model) (am : Model)
      (e : Err), st.getModel model = .ok am →
      dr.findByIdAndUpdate am item._id (.set item) ⟨true, true⟩ = .error e →
      (st.insertItem dr item true model).result = .error e ∧
      (st.insertItem dr item true model).log = [.err "Error inserting item:" e]) ∧
    (∀ (st : MongoPackage) (dr : Driver) (item : Doc) (model : Option Model) (am : Model)
      (e : Err), st.getModel model = .ok am → dr.save am item = .error e →
      (st.insertItem dr item false model).result = .error e ∧
      (st.insertItem dr item false model).log = [.err "Error inserting item:" e]) ∧
    (∀ (st : MongoPackage) (dr : Driver) (q : Query) (model : Option Model) (am : Model)
      (e : Err), st.getModel model = .ok am → dr.existsD am q = .error e →
      (st.existsItem dr q model).result = .error e ∧
      (st.existsItem dr q model).log = [.err "Error checking item existence:" e]) ∧
    (∀ (st : MongoPackage) (dr : Driver) (hd : Doc) (tl : List Doc) (b : Bool)
      (model : Option Model) (e : Err), (st.insertItem dr hd b model).result = .error e →
      (st.insertArray dr (.arr (hd :: tl)) b model).result = .error e ∧
      (st.insertArray dr (.arr (hd :: tl)) b model).log =
        (st.insertItem dr hd b model).log ++ [.err "Error inserting array:" e]) ∧
    (∀ (st : MongoPackage) (dr : Driver) (ids : List Value) (model : Option Model) (am : Model)
      (e : Err), st.getModel model = .ok am → dr.deleteMany am (.idIn ids) = .error e →
      (st.deleteItems dr (.arr ids) model).result = .error e ∧
      (st.deleteItems dr (.arr ids) model).log = [.err "Error deleting items:" e]) ∧
    (∀ (st : MongoPackage) (dr : Driver) (q : Query) (o : FindOpts) (model : Option Model)
      (am : Model) (e : Err), st.getModel model = .ok am → dr.find am q none o = .error e →
      (st.findItems dr q o model).result = .error e ∧
      (st.findItems dr q o model).log = [.err "Error finding items:" e]) ∧
    (∀ (st : MongoPackage) (dr : Driver) (p : Pipeline) (model : Option Model) (am : Model)
      (e : Err), st.getModel model = .ok am → dr.aggregate am p = .error e →
      (st.runAggregation dr p model).result = .error e ∧
      (st.runAggregation dr p model).log = [.err "Error running aggregation:" e]) ∧
    (∀ (st : MongoPackage) (dr : Driver) (n : String) (f : Query) (o : QueryOpts) (e : Err),
      dr.collFind n f (queryCollectionOpts o) = .error e →
      (st.queryCollection dr n f o).result = .error e ∧
      (st.queryCollection dr n f o).log = [.err "Error in queryCollection:" e]) ∧
    (∀ (st : MongoPackage) (dr : Driver) (n : String) (p : Pipeline) (o : AggOpts) (e : Err),
      dr.collAggregate n p (aggregateCollectionOpts o) = .error e →
      (st.aggregateCollection dr n p o).result = .error e ∧
      (st.aggregateCollection dr n p o).log = [.err "Error in aggregateCollection:" e]) ∧
    (∀ (st : MongoPackage) (dr : Driver) (f : Query) (fn : String) (v : Value)
      (model : Option Model) (am : Model) (e : Err), st.getModel model = .ok am →
      dr.updateMany am f (.setField fn v) = .error e →
      (st.updateManyField dr f fn v model).result = .error e ∧
      (st.updateManyField dr f fn v model).log = [.err "Error updating documents:" e]) := by
  refine ⟨?_, ?_, ?_, ?_, ?_, ?_, ?_, ?_, ?_, ?_, ?_, ?_⟩
  · intro st dr e he
    constructor <;> simp [MongoPackage.connect, he]
  · intro st dr e he
    constructor <;> simp [MongoPackage.disconnect, he]
  · intro st dr item model am e hm he
    constructor <;> simp [MongoPackage.insertItem, hm, he]
  · intro st dr item model am e hm he
    constructor <;> simp [MongoPackage.insertItem, hm, he]
  · intro st dr q model am e hm he
    constructor <;> simp [MongoPackage.existsItem, hm, he]
  · intro st dr hd tl b model e he
    have hl : st.insertLoop dr b model (hd :: tl) =
        ⟨.error e, (st.insertItem dr hd b model).calls, (st.insertItem dr hd b model).log, st⟩ := by
      simp [MongoPackage.insertLoop, he]
    constructor <;> simp [MongoPackage.insertArray, hl]
  · intro st dr ids model am e hm he
    constructor <;> simp [MongoPackage.deleteItems, hm, he]
  · intro st dr q o model am e hm he
    constructor <;> simp [MongoPackage.findItems, hm, he]
  · intro st dr p model am e hm he
    constructor <;> simp [MongoPackage.runAggregation, hm, he]
  · intro st dr n f o e he
    constructor <;> simp [MongoPackage.queryCollection, he]
  · intro st dr n p o e he
    constructor <;> simp [MongoPackage.aggregateCollection, he]
  · intro st dr f fn v model am e hm he
    constructor <;> simp [MongoPackage.updateManyField, hm, he]

/-- Witness for C2: on the always-failing driver, concrete connect and
insertItem calls propagate the fixed error object and log it. -/
theorem c2_log_and_rethrow_witness :
    ((st0.connect drErr).result = .error e0 ∧
      (st0.connect drErr).log = [.err "Error connecting to MongoDB:" e0]) ∧
    ((st0.insertItem drErr doc0 false none).result = .error e0 ∧
      (st0.insertItem drErr doc0 false none).log = [.err "Error inserting item:" e0]) :=
  ⟨c2_log_and_rethrow.1 st0 drErr e0 rfl,
   c2_log_and_rethrow.2.2.2.1 st0 drErr doc0 none m0 e0 rfl rfl⟩
